import Mathlib

/-
Verification of the drive-thru ordering frontend
(src/frontend/src/routes/+page.svelte).

The page script is embedded shallowly. JavaScript objects whose keys may
be absent are modelled with Option-valued fields, where `none` stands for
an absent key (reading it yields `undefined`). The asynchronous submit
flow is split at its await points: `submitStart` is the synchronous
prefix that sets `loading` and clears `error` (lines 75-76), and
`submitFinish` is the continuation that runs once the fetch settles
(lines 78-117), with the `finally` clearing `loading`. The outcome of
the network round-trip is an explicit `SubmitOutcome` value: either the
promise chain threw (transport failure or a JSON parse failure, carrying
the `Error.message` when the thrown value was an `Error`), or a response
arrived with its `ok` flag and parsed body. Bodies are well formed per
the wire contract of the backend: a submit response always carries
`history` and `totals` fields. JavaScript truthiness of strings (empty
string and `undefined` are falsy) is modelled by `jsOr` / `jsOrD`, and
template-literal interpolation of a possibly-undefined value by `jsStr`
and `jsIntStr` (interpolating `undefined` prints the text "undefined").
-/

namespace DriveThru

/-- A wire or UI order item record. The backend sends `item_type` and
`quantity`; the mapper in the page produces an object with only
`itemType` and `quantity`, so both spellings are carried as optional
fields and an absent key is `none`. -/
structure OrderItemRec where
  item_type : Option String
  itemType : Option String
  quantity : Option Int
deriving DecidableEq

/-- A wire or UI history record. The backend sends snake_case keys; the
page mapper spreads the original record and adds `actionType`, so a
mapped record still carries `action_type` as well. `display_message`
is optional on the wire (used mainly for cancellations). -/
structure HistoryRec where
  id : Option Int
  action_type : Option String
  actionType : Option String
  items : List OrderItemRec
  timestamp : Option String
  display_message : Option String
deriving DecidableEq

/-- The totals aggregate returned by the backend. -/
structure Totals where
  burger : Int
  fries : Int
  drink : Int
deriving DecidableEq

/-- The page-local state: the five script-level bindings of the page
(lines 29-33). `error` is `Option String` because the assignment on the
application-error path can leave it `undefined`. -/
structure PageState where
  message : String
  history : List HistoryRec
  totals : Totals
  loading : Bool
  error : Option String
deriving DecidableEq

/-- JavaScript `a || b` on two possibly-undefined strings: `a` when it
is present and non-empty, else `b`. -/
def jsOr (a b : Option String) : Option String :=
  match a with
  | some s => if s = "" then b else some s
  | none => b

/-- JavaScript `a || b` where `b` is a string literal, as in
`data.detail || "Failed to process order"` (line 93). -/
def jsOrD (a : Option String) (b : String) : String :=
  match a with
  | some s => if s = "" then b else s
  | none => b

/-- Template-literal interpolation of a possibly-undefined string. -/
def jsStr (a : Option String) : String :=
  match a with
  | some s => s
  | none => "undefined"

/-- Template-literal interpolation of a possibly-undefined number. -/
def jsIntStr (a : Option Int) : String :=
  match a with
  | some n => toString n
  | none => "undefined"

/-- JavaScript `String.prototype.trim`: the string with leading and
trailing whitespace removed. -/
def jsTrim (s : String) : String :=
  String.mk
    (((s.data.dropWhile Char.isWhitespace).reverse.dropWhile
        Char.isWhitespace).reverse)

/-- JavaScript truthiness of a possibly-undefined string. -/
def isTruthy (a : Option String) : Bool :=
  match a with
  | some s => s ≠ ""
  | none => false

/-- The inner arrow of the history mapper (lines 104-107 and 50-53):
`fun item => ({ itemType: item.item_type, quantity: item.quantity })`.
The result has exactly the keys `itemType` and `quantity`; the
snake_case `item_type` key is not carried over. -/
def mapOrderItem (i : OrderItemRec) : OrderItemRec :=
  { item_type := none, itemType := i.item_type, quantity := i.quantity }

/-- The history mapper (lines 101-109 and 47-55): spreads the source
record, then overrides `actionType` with the snake_case `action_type`,
maps the nested items with `mapOrderItem`, and copies
`display_message`. -/
def mapHistoryItem (r : HistoryRec) : HistoryRec :=
  { r with
    actionType := r.action_type
    items := r.items.map mapOrderItem
    display_message := r.display_message }

/-- The parsed body of a `/process-order` response (line 89). `status`,
`detail`, `display_message` and `message` are optional keys; `history`
and `totals` are present per the wire contract. -/
structure SubmitBody where
  status : Option String
  detail : Option String
  display_message : Option String
  message : Option String
  history : List HistoryRec
  totals : Totals
deriving DecidableEq

/-- How the awaited part of the submit flow settles: either the promise
chain threw (transport failure or body-parse failure; `msg` is the
`Error.message` when the thrown value was an `Error`, `none` otherwise),
or a response arrived and its body parsed, with the HTTP `ok` flag. -/
inductive SubmitOutcome where
  | thrown (msg : Option String)
  | response (ok : Bool) (body : SubmitBody)
deriving DecidableEq

/-- The synchronous prefix of `processOrder` (lines 75-76): set
`loading = true`, clear `error` to the empty string. -/
def submitStart (s : PageState) : PageState :=
  { s with loading := true, error := some "" }

/-- The rest of `processOrder` (lines 78-117), run on the state left by
`submitStart` once the round-trip settles. A non-2xx response throws
`Error(data.detail || "Failed to process order")`, which the catch
block turns into `error = err.message`; a thrown non-`Error` value
gives the generic message. A body with `status === "error"` sets
`error = data.display_message || data.message` and returns early.
Otherwise `history` is replaced by the mapped response history,
`totals` by the response totals, and `message` is cleared. The
`finally` block sets `loading = false` on every path. -/
def submitFinish (s : PageState) (o : SubmitOutcome) : PageState :=
  let s1 :=
    match o with
    | .thrown m => { s with error := some (m.getD "Failed to process order") }
    | .response ok body =>
      if !ok then
        { s with error := some (jsOrD body.detail "Failed to process order") }
      else if body.status = some "error" then
        { s with error := jsOr body.display_message body.message }
      else
        { s with
          history := body.history.map mapHistoryItem
          totals := body.totals
          message := "" }
  { s1 with loading := false }

/-- The whole submit flow `processOrder` (lines 73-118) as a function of
the initial state and the outcome of the network round-trip. -/
def processOrder (s : PageState) (o : SubmitOutcome) : PageState :=
  submitFinish (submitStart s) o

/-- The submit handler (lines 63-71): when the trimmed message is empty
it returns without calling `processOrder`. The Bool records whether a
network call was made. -/
def handleSubmit (s : PageState) (o : SubmitOutcome) : PageState × Bool :=
  if jsTrim s.message = "" then (s, false) else (processOrder s o, true)

/-- Outcome of parsing one response body: `ok` with the parsed value,
or `err` with the message of the thrown parse error. -/
inductive ParseResult (α : Type) where
  | ok (v : α)
  | err (msg : String)
deriving DecidableEq

/-- How the startup fetch pair settles: either a fetch promise rejected
(transport failure), or both responses arrived with their `ok` flags
and the outcomes of parsing the two bodies. -/
inductive FetchPairOutcome where
  | thrown (msg : Option String)
  | responses (ordersOk totalsOk : Bool)
      (ordersBody : ParseResult (List HistoryRec))
      (totalsBody : ParseResult Totals)
deriving DecidableEq

/-- `fetchOrders` (lines 35-61). If either response is not ok the code
throws `Error("Failed to fetch data from server")`, caught below as
`error = err.message`. Otherwise the orders body is parsed and, on
success, `history` is assigned the mapped records (line 47); only then
is the totals body awaited and assigned (line 56). A parse failure of
the totals body therefore lands in the catch block with `history`
already updated. The catch sets `error` to the thrown message, or to
the generic fetch message for a non-`Error` value. -/
def fetchOrders (s : PageState) (p : FetchPairOutcome) : PageState :=
  match p with
  | .thrown m => { s with error := some (m.getD "Failed to fetch orders") }
  | .responses oOk tOk oBody tBody =>
    if !oOk || !tOk then
      { s with error := some "Failed to fetch data from server" }
    else
      match oBody with
      | .err m => { s with error := some m }
      | .ok hist =>
        let s1 := { s with history := hist.map mapHistoryItem }
        match tBody with
        | .err m => { s1 with error := some m }
        | .ok t => { s1 with totals := t }

/-- What the history panel renders for one entry (lines 183-207):
whether the row container and the label use the red cancel styling, the
label text, and the right-hand content, which is either the display
message (for a cancel entry whose display message is truthy) or the
item listing. -/
structure RenderedRow where
  redContainer : Bool
  redLabel : Bool
  label : String
  content : String
  contentIsDisplayMessage : Bool
deriving DecidableEq

/-- The "quantity itemType" listing joined by commas (line 202). -/
def itemListing (items : List OrderItemRec) : String :=
  String.intercalate ", "
    (items.map fun i => jsIntStr i.quantity ++ " " ++ jsStr i.itemType)

/-- One row of the history panel (lines 183-207): red styling and the
"Cancelled" label exactly when `actionType === "cancel"`; the display
message shown instead of the item listing exactly when the entry is a
cancel entry and its display message is truthy. -/
def renderRow (r : HistoryRec) : RenderedRow :=
  let isCancel : Bool := r.actionType = some "cancel"
  let showMsg : Bool := isCancel && isTruthy r.display_message
  { redContainer := isCancel
    redLabel := isCancel
    label :=
      if isCancel then "#" ++ jsIntStr r.id ++ " - Cancelled"
      else "#" ++ jsIntStr r.id ++ " - " ++ jsStr r.actionType
    content :=
      if showMsg then jsStr r.display_message
      else itemListing r.items
    contentIsDisplayMessage := showMsg }

/-- C1: for every submit whose HTTP response is successful and whose
body status field is not "error", the resulting page state is exactly:
empty message, history equal to the mapped response history, totals
equal to the response totals, loading false, error cleared to the empty
string. The old history and totals are discarded wholesale. -/
theorem submit_success_replaces_state (s : PageState) (body : SubmitBody)
    (h : body.status ≠ some "error") :
    processOrder s (.response true body) =
      { message := ""
        history := body.history.map mapHistoryItem
        totals := body.totals
        loading := false
        error := some "" } := by
  simp [processOrder, submitStart, submitFinish, h]

/-- Witness for C1 at a concrete state and response. -/
theorem submit_success_replaces_state_witness :
    processOrder ⟨"one burger", [], ⟨0, 0, 0⟩, false, some ""⟩
        (.response true ⟨some "ok", none, none, none,
          [⟨some 7, some "order", none, [⟨some "burger", none, some 1⟩],
            some "ts", none⟩],
          ⟨1, 0, 0⟩⟩) =
      { message := ""
        history := [⟨some 7, some "order", some "order",
          [⟨none, some "burger", some 1⟩], some "ts", none⟩]
        totals := ⟨1, 0, 0⟩
        loading := false
        error := some "" } :=
  submit_success_replaces_state _ _ (by decide)

/-- C2: loading is set true by the synchronous start of the submit flow
and is false again after every outcome of the flow — success,
application-level error return, non-2xx throw and transport throw alike
— so loading is true exactly while a submit is in flight and never
remains stuck true. -/
theorem loading_guaranteed_release (s : PageState) (o : SubmitOutcome) :
    (submitStart s).loading = true ∧ (processOrder s o).loading = false :=
  ⟨rfl, rfl⟩

/-- C3: when the trimmed message is empty, the submit handler is a
no-op: it makes no network call (the Bool is false) and returns the
page state unchanged, so error and loading are untouched and nothing is
surfaced to the user. -/
theorem empty_message_submit_noop (s : PageState) (o : SubmitOutcome)
    (h : jsTrim s.message = "") :
    handleSubmit s o = (s, false) := by
  simp [handleSubmit, h]

/-- Witness for C3 at a whitespace-only message. -/
theorem empty_message_submit_noop_witness :
    handleSubmit ⟨"  \t ", [], ⟨0, 0, 0⟩, false, some ""⟩ (.thrown none) =
      (⟨"  \t ", [], ⟨0, 0, 0⟩, false, some ""⟩, false) :=
  empty_message_submit_noop _ _ (by decide)

/-- C4: a submit that ends in a transport failure or a non-2xx response
leaves history and totals untouched and sets error to the failure
message: the thrown message on a transport failure, the backend detail
field when present and non-empty on a non-2xx response, and the generic
message when detail is absent. -/
theorem submit_failure_error_and_frame (s : PageState) (body : SubmitBody)
    (m : Option String) :
    ((processOrder s (.thrown m)).history = s.history ∧
      (processOrder s (.thrown m)).totals = s.totals ∧
      (processOrder s (.thrown m)).error =
        some (m.getD "Failed to process order")) ∧
    ((processOrder s (.response false body)).history = s.history ∧
      (processOrder s (.response false body)).totals = s.totals) ∧
    (∀ d : String, body.detail = some d → d ≠ "" →
      (processOrder s (.response false body)).error = some d) ∧
    (body.detail = none →
      (processOrder s (.response false body)).error =
        some "Failed to process order") := by
  refine ⟨⟨rfl, rfl, rfl⟩, ⟨rfl, rfl⟩, ?_, ?_⟩
  · intro d hd hne
    simp [processOrder, submitStart, submitFinish, jsOrD, hd, hne]
  · intro hd
    simp [processOrder, submitStart, submitFinish, jsOrD, hd]

/-- Witness for C4: a non-2xx response whose body carries a detail
field yields that detail as the error. -/
theorem submit_failure_error_and_frame_witness :
    (processOrder ⟨"cancel order 2", [], ⟨1, 1, 1⟩, false, some ""⟩
        (.response false
          ⟨none, some "Order not found", none, none, [], ⟨0, 0, 0⟩⟩)).error =
      some "Order not found" :=
  (submit_failure_error_and_frame ⟨"cancel order 2", [], ⟨1, 1, 1⟩, false, some ""⟩
      ⟨none, some "Order not found", none, none, [], ⟨0, 0, 0⟩⟩ none).2.2.1
    "Order not found" rfl (by decide)

/-- C5 counterexample: on a status "error" response without a display
message, the code falls back to the message field of the response body,
not to a fixed generic message — two bodies that differ only in that
field produce two different errors, and when the message field is also
absent no error string is set at all. -/
theorem submit_app_error_fallback_cex :
    (processOrder ⟨"m", [], ⟨0, 0, 0⟩, false, some ""⟩
        (.response true
          ⟨some "error", none, none, some "No order with id 9", [],
            ⟨0, 0, 0⟩⟩)).error = some "No order with id 9" ∧
    (processOrder ⟨"m", [], ⟨0, 0, 0⟩, false, some ""⟩
        (.response true
          ⟨some "error", none, none, some "Unknown item", [],
            ⟨0, 0, 0⟩⟩)).error = some "Unknown item" ∧
    ("No order with id 9" : String) ≠ "Unknown item" ∧
    (processOrder ⟨"m", [], ⟨0, 0, 0⟩, false, some ""⟩
        (.response true
          ⟨some "error", none, none, none, [], ⟨0, 0, 0⟩⟩)).error = none := by
  decide

/-- C5 amended: on a response whose body status is "error", history,
totals and message are left untouched, loading ends false, and error is
set to the display message of the body when present and non-empty,
otherwise to the message field of the body — which may itself be
absent, in which case no error string is set. -/
theorem submit_app_error_amended (s : PageState) (body : SubmitBody)
    (h : body.status = some "error") :
    (processOrder s (.response true body)).history = s.history ∧
    (processOrder s (.response true body)).totals = s.totals ∧
    (processOrder s (.response true body)).message = s.message ∧
    (processOrder s (.response true body)).loading = false ∧
    (processOrder s (.response true body)).error =
      jsOr body.display_message body.message := by
  simp [processOrder, submitStart, submitFinish, h]

/-- Witness for the amended C5 at a concrete error response. -/
theorem submit_app_error_amended_witness :
    (processOrder ⟨"m", [], ⟨2, 0, 0⟩, false, none⟩
        (.response true
          ⟨some "error", none, some "Could not parse order", none, [],
            ⟨9, 9, 9⟩⟩)).totals = ⟨2, 0, 0⟩ ∧
    (processOrder ⟨"m", [], ⟨2, 0, 0⟩, false, none⟩
        (.response true
          ⟨some "error", none, some "Could not parse order", none, [],
            ⟨9, 9, 9⟩⟩)).error = jsOr (some "Could not parse order") none :=
  ⟨(submit_app_error_amended _ _ rfl).2.1,
    (submit_app_error_amended _ _ rfl).2.2.2.2⟩

/-- C6 counterexample: the initial fetch can update history and totals
partially. When both responses are ok, the orders body parses, and the
totals body then fails to parse, the catch block runs with history
already replaced: starting from empty history and totals 5, 2, 1, the
final state holds the new history together with the stale totals. -/
theorem fetch_partial_update_cex :
    (fetchOrders ⟨"", [], ⟨5, 2, 1⟩, false, some ""⟩
        (.responses true true
          (.ok [⟨some 1, some "order", none,
            [⟨some "burger", none, some 1⟩], some "t", none⟩])
          (.err "Unexpected end of JSON input"))).history ≠
      ([] : List HistoryRec) ∧
    (fetchOrders ⟨"", [], ⟨5, 2, 1⟩, false, some ""⟩
        (.responses true true
          (.ok [⟨some 1, some "order", none,
            [⟨some "burger", none, some 1⟩], some "t", none⟩])
          (.err "Unexpected end of JSON input"))).totals = ⟨5, 2, 1⟩ := by
  decide

/-- C6 amended: every submit either leaves history and totals both
unchanged or replaces both together from the single response body, and
the initial fetch replaces both together whenever both bodies parse;
only the fetch path on which the totals body fails to parse after the
orders body succeeded updates history while keeping the old totals. -/
theorem snapshot_replacement_amended (s : PageState) (o : SubmitOutcome)
    (hist : List HistoryRec) (t : Totals) :
    (((processOrder s o).history = s.history ∧
        (processOrder s o).totals = s.totals) ∨
      (∃ body, o = .response true body ∧
        (processOrder s o).history = body.history.map mapHistoryItem ∧
        (processOrder s o).totals = body.totals)) ∧
    ((fetchOrders s (.responses true true (.ok hist) (.ok t))).history =
        hist.map mapHistoryItem ∧
      (fetchOrders s (.responses true true (.ok hist) (.ok t))).totals = t) := by
  refine ⟨?_, rfl, rfl⟩
  match o with
  | .thrown m => exact Or.inl ⟨rfl, rfl⟩
  | .response false body => exact Or.inl ⟨rfl, rfl⟩
  | .response true body =>
    by_cases h : body.status = some "error"
    · exact Or.inl ⟨by simp [processOrder, submitStart, submitFinish, h],
        by simp [processOrder, submitStart, submitFinish, h]⟩
    · exact Or.inr ⟨body, rfl,
        by simp [processOrder, submitStart, submitFinish, h],
        by simp [processOrder, submitStart, submitFinish, h]⟩

/-- C7: the history mapper is a total function, and on a record whose
display_message key is absent it produces the fully mapped record —
camelCase actionType, nested items mapped — whose display message is
still absent (reading it yields undefined). -/
theorem mapHistoryItem_total_absent_message (r : HistoryRec)
    (h : r.display_message = none) :
    mapHistoryItem r =
      { id := r.id
        action_type := r.action_type
        actionType := r.action_type
        items := r.items.map mapOrderItem
        timestamp := r.timestamp
        display_message := none } := by
  simp [mapHistoryItem, h]

/-- Witness for C7 at a concrete record without a display message. -/
theorem mapHistoryItem_total_absent_message_witness :
    mapHistoryItem ⟨some 3, some "order", none,
        [⟨some "fries", none, some 2⟩], some "ts", none⟩ =
      { id := some 3
        action_type := some "order"
        actionType := some "order"
        items := [⟨none, some "fries", some 2⟩]
        timestamp := some "ts"
        display_message := none } :=
  mapHistoryItem_total_absent_message _ rfl

/-- C8 counterexample: the history mapper is not idempotent. The inner
item mapper emits an object with only the camelCase itemType and the
quantity, dropping the snake_case item_type key, so a second
application reads the now-absent item_type and resets itemType to
undefined: mapping this record twice differs from mapping it once. -/
theorem mapHistoryItem_not_idempotent_cex :
    mapHistoryItem (mapHistoryItem ⟨some 1, some "order", none,
        [⟨some "burger", none, some 1⟩], some "t", none⟩) ≠
      mapHistoryItem ⟨some 1, some "order", none,
        [⟨some "burger", none, some 1⟩], some "t", none⟩ := by
  decide

/-- C8 amended: re-mapping an already-mapped record preserves every
top-level field — id, action_type, actionType, timestamp,
display_message — but not the nested items: the second application
keeps each quantity and sets each itemType to undefined, because the
first application dropped the snake_case item_type key it reads. -/
theorem mapHistoryItem_remap_behavior (r : HistoryRec) :
    (mapHistoryItem (mapHistoryItem r)).id = (mapHistoryItem r).id ∧
    (mapHistoryItem (mapHistoryItem r)).action_type =
      (mapHistoryItem r).action_type ∧
    (mapHistoryItem (mapHistoryItem r)).actionType =
      (mapHistoryItem r).actionType ∧
    (mapHistoryItem (mapHistoryItem r)).timestamp =
      (mapHistoryItem r).timestamp ∧
    (mapHistoryItem (mapHistoryItem r)).display_message =
      (mapHistoryItem r).display_message ∧
    (mapHistoryItem (mapHistoryItem r)).items =
      r.items.map fun i =>
        { item_type := none, itemType := none, quantity := i.quantity } := by
  refine ⟨rfl, rfl, rfl, rfl, rfl, ?_⟩
  simp [mapHistoryItem, mapOrderItem, List.map_map, Function.comp]

/-- C9: a history row with actionType "cancel" gets the red container
and red Cancelled label, and when it carries a truthy display message
that message is shown instead of the item listing; a non-cancel row,
and a cancel row without a display message, shows the item listing of
quantity itemType pairs joined by commas. -/
theorem history_row_cancel_rendering (r : HistoryRec) :
    (r.actionType = some "cancel" →
      (renderRow r).redContainer = true ∧ (renderRow r).redLabel = true ∧
      (renderRow r).label = "#" ++ jsIntStr r.id ++ " - Cancelled") ∧
    (∀ m : String, r.actionType = some "cancel" → r.display_message = some m →
      m ≠ "" →
      (renderRow r).content = m ∧
      (renderRow r).contentIsDisplayMessage = true) ∧
    (r.actionType ≠ some "cancel" →
      (renderRow r).content = itemListing r.items) ∧
    (r.display_message = none →
      (renderRow r).content = itemListing r.items) := by
  refine ⟨?_, ?_, ?_, ?_⟩
  · intro h
    simp [renderRow, h]
  · intro m h hm hne
    simp [renderRow, isTruthy, jsStr, h, hm, hne]
  · intro h
    simp [renderRow, h]
  · intro h
    simp [renderRow, isTruthy, h]

/-- Witness for C9 at the cancellation scenario of the spec. -/
theorem history_row_cancel_rendering_witness :
    (renderRow ⟨some 2, some "cancel", some "cancel", [], some "ts",
        some "Order 2 cancelled"⟩).redContainer = true ∧
    (renderRow ⟨some 2, some "cancel", some "cancel", [], some "ts",
        some "Order 2 cancelled"⟩).content = "Order 2 cancelled" :=
  ⟨((history_row_cancel_rendering _).1 rfl).1,
    ((history_row_cancel_rendering _).2.1 "Order 2 cancelled" rfl rfl
      (by decide)).1⟩

/-- C10: a history row whose actionType is not "cancel" always shows
the item listing — even when the record carries a display message — and
never the display message, the red styling, or the Cancelled label. -/
theorem history_row_noncancel_rendering (r : HistoryRec)
    (h : r.actionType ≠ some "cancel") :
    (renderRow r).content = itemListing r.items ∧
    (renderRow r).contentIsDisplayMessage = false ∧
    (renderRow r).redContainer = false ∧
    (renderRow r).redLabel = false ∧
    (renderRow r).label =
      "#" ++ jsIntStr r.id ++ " - " ++ jsStr r.actionType := by
  simp [renderRow, h]

/-- Witness for C10 at an order row that carries a display message: the
item listing is shown anyway. -/
theorem history_row_noncancel_rendering_witness :
    (renderRow ⟨some 3, some "order", some "order",
        [⟨none, some "burger", some 2⟩], some "ts", some "note"⟩).content =
      itemListing [⟨none, some "burger", some 2⟩] ∧
    (renderRow ⟨some 3, some "order", some "order",
        [⟨none, some "burger", some 2⟩], some "ts",
        some "note"⟩).contentIsDisplayMessage = false :=
  ⟨(history_row_noncancel_rendering _ (by decide)).1,
    (history_row_noncancel_rendering _ (by decide)).2.1⟩

end DriveThru
